import Mathlib

/-!
Verification of the SQLiteWrapper adaptation layer (src/src/SQLiteWrapped.cpp,
src/include/SQLiteWrapped.hpp) against its natural-language specification.

The wrapper is a thin C++ layer over the SQLite3 C API.  The embedding below
translates the wrapper's own code into Lean: the engine itself (sqlite3.h and
the native `::sqlite3_*` functions) is an external collaborator, so native
calls are abstracted as explicit inputs (result codes, produced handles,
error-text lookup functions), while every line of wrapper logic — result-code
classification, message construction, the order of release/raise, null-pointer
translation, pointer arithmetic on the SQL remainder, and the move semantics of
the one-time initialization token — is modelled faithfully from the source.

Native handles are modelled as `Nat` identifiers, result codes as `Int`
(C `int`), C++ exceptions as the `.error` branch of `Except` or as explicit
`raise` events in a trace, and statement-by-statement control flow (where the
order of native calls, releases and throws matters) as lists of events.
-/

namespace Sqlt3

/-- Engine result code `SQLITE_OK` (sqlite3.h): generic success. -/
def SQLITE_OK : Int := 0

/-- Engine result code `SQLITE_ROW`: a row of output is available. -/
def SQLITE_ROW : Int := 100

/-- Engine result code `SQLITE_DONE`: the operation has completed. -/
def SQLITE_DONE : Int := 101

/-- `result_is_error` (SQLiteWrapped.cpp lines 48-52):
`return !(code == SQLITE_OK || code == SQLITE_ROW || code == SQLITE_DONE);`. -/
def result_is_error (code : Int) : Bool :=
  !(code == SQLITE_OK || code == SQLITE_ROW || code == SQLITE_DONE)

/-- `error_string_without_details` (lines 42-47): builds the string
`"SQLite error(" + to_string(code) + ")"`. -/
def error_string_without_details (code : Int) : String :=
  "SQLite error(" ++ toString code ++ ")"

/-- Error-text lookup supplied by the external engine: the global
code-to-string table `::sqlite3_errstr` and the connection-scoped last-error
message `::sqlite3_errmsg`. -/
structure Engine where
  errstr : Int → String
  errmsg : Nat → String

/-- `throw_error` generic overload (lines 54-59): with no connection handle
among the arguments, the message suffix comes from `::sqlite3_errstr(code)`. -/
def throw_error_global (eng : Engine) (code : Int) : String :=
  error_string_without_details code ++ ": " ++ eng.errstr code

/-- `throw_error` overload taking `sqlite3_t db` (lines 60-65): with a
connection handle available, the suffix comes from `::sqlite3_errmsg(db)`. -/
def throw_error_db (eng : Engine) (code : Int) (db : Nat) : String :=
  error_string_without_details code ++ ": " ++ eng.errmsg db

/-- The message `throw_error` produces, resolving the C++ overload on whether a
connection handle follows the code in the argument list. -/
def throw_error_message (eng : Engine) (ctx : Option Nat) (code : Int) : String :=
  match ctx with
  | some db => throw_error_db eng code db
  | none => throw_error_global eng code

/-- `invoke_with_result_error` (lines 67-75): invoke the native operation
(abstracted as its returned `code`), classify, throw on failure with the
overload-selected message, otherwise return the code. `ctx` is the connection
handle among the forwarded arguments, when there is one. -/
def invoke_with_result_error (eng : Engine) (ctx : Option Nat) (code : Int) :
    Except String Int :=
  if result_is_error code then Except.error (throw_error_message eng ctx code)
  else Except.ok code

/-- A concrete engine used to evaluate the model on explicit inputs. -/
def engDemo : Engine :=
  { errstr := fun _ => "unknown error", errmsg := fun _ => "constraint failed" }

/-! ### One-time initialization token (`detail::initialize_t`)

`initialize_t` (SQLiteWrapped.hpp 188-198, SQLiteWrapped.cpp 634-650) holds one
`bool moved = false`.  The move constructor sets `x.moved = true` on the source
and leaves the new object's flag at its default `false`; move assignment sets
`x.moved = true` only when `this != &x`, and leaves the destination's own flag
unchanged; the destructor calls `::sqlite3_shutdown()` exactly when `!moved`.

A configuration of token objects is a `List Bool` of their `moved` flags, in
creation order; operations refer to objects by position. -/

/-- A move-construction from the object at `src`, or a move-assignment from the
object at `src` into the object at `dst` (the forms `auto b = std::move(a)` and
`b = std::move(a)`). -/
inductive TokOp where
  | moveCtor (src : Nat)
  | moveAssign (dst src : Nat)
deriving DecidableEq

/-- One token operation on the configuration, straight from the member
definitions (cpp 634-644): move-construction marks the source moved and appends
a new object whose flag has its default value `false`; move-assignment marks the
source moved unless source and destination are the same object, and never
touches the destination's flag. -/
def tokStep (w : List Bool) : TokOp → List Bool
  | TokOp.moveCtor src => (w.set src true) ++ [false]
  | TokOp.moveAssign dst src => if dst = src then w else w.set src true

/-- A sequence of token operations applied in order. -/
def tokRun (w : List Bool) : List TokOp → List Bool
  | [] => w
  | op :: rest => tokRun (tokStep w op) rest

/-- `initialize_t::~initialize_t` (cpp 645-650): destruction runs
`::sqlite3_shutdown()` exactly when the flag is still `false`. -/
def tokDtorShutdowns (moved : Bool) : Nat := if moved then 0 else 1

/-- Shutdowns fired when every object of the configuration is destroyed. -/
def shutdownCount (w : List Bool) : Nat := (w.map tokDtorShutdowns).sum

/-- The operations refer only to objects that exist (argument positions are in
range at the point each operation runs). -/
def tokOpsValid : List Bool → List TokOp → Bool
  | w, TokOp.moveCtor src :: rest =>
      decide (src < w.length) && tokOpsValid (tokStep w (TokOp.moveCtor src)) rest
  | w, TokOp.moveAssign dst src :: rest =>
      decide (dst < w.length) && decide (src < w.length) &&
        tokOpsValid (tokStep w (TokOp.moveAssign dst src)) rest
  | _, [] => true

/-- The restriction under which the amended C3 holds: every move-construction
takes a still-live source, and every move-assignment is either a self-move or
takes an already-moved source (a live token is never passed through
`operator=`, whose body does not mark the destination live). -/
def tokOpsSafe : List Bool → List TokOp → Bool
  | w, TokOp.moveCtor src :: rest =>
      (w.getD src true == false) && tokOpsSafe (tokStep w (TokOp.moveCtor src)) rest
  | w, TokOp.moveAssign dst src :: rest =>
      (dst == src || w.getD src false == true) &&
        tokOpsSafe (tokStep w (TokOp.moveAssign dst src)) rest
  | _, [] => true

/-! ### Ownership wrappers: explicit finish / finalize / close -/

/-- What a wrapper call leaves behind: whether the `unique_*` wrapper still owns
the native handle afterwards, and the raised error code when the call threw. -/
structure WrapperOutcome where
  owns : Bool
  raised : Option Int
deriving DecidableEq

/-- `Sqlt3::sqlite3_backup_finish(unique_backup&&)` (cpp 95-99): the body is
`invoke_with_result_error(::sqlite3_backup_finish, b.get()); b.release();`, so
a failing native finish throws before `b.release()` runs and the wrapper keeps
ownership; only on success is the wrapper disarmed. `code` is the native finish
result. -/
def sqlite3_backup_finish (code : Int) : WrapperOutcome :=
  if result_is_error code then { owns := true, raised := some code }
  else { owns := false, raised := none }

/-- `detail::BackupDeleter::operator()` (cpp 651-654): automatic cleanup calls
`::sqlite3_backup_finish` on the handle it still owns; a disarmed wrapper holds
null and `unique_ptr` skips the deleter. Counts the native finish calls the
destructor adds. -/
def backupDeleterNativeCalls (owns : Bool) : Nat := if owns then 1 else 0

/-- Total native `::sqlite3_backup_finish` invocations for one explicit
finish call followed by destruction of the wrapper: one in the wrapper body,
plus the destructor's call when the wrapper was left armed. -/
def backupFinishTotalNativeCalls (code : Int) : Nat :=
  1 + backupDeleterNativeCalls (sqlite3_backup_finish code).owns

/-- `Sqlt3::sqlite3_finalize(unique_statement&&)` (cpp 408-411): the body is
`invoke_with_result_error(::sqlite3_finalize, s.release());` — `s.release()` is
evaluated to produce the native argument before the call, so the wrapper is
disarmed whether or not finalize reports an error. -/
def sqlite3_finalize (code : Int) : WrapperOutcome :=
  { owns := false, raised := if result_is_error code then some code else none }

/-- `Sqlt3::sqlite3_close(unique_connection&&)` (cpp 225-229): the body is
`invoke_with_result_error(::sqlite3_close, c.get()); c.release();` — a failing
native close throws before `c.release()`, leaving the wrapper armed. -/
def sqlite3_close (code : Int) : WrapperOutcome :=
  if result_is_error code then { owns := true, raised := some code }
  else { owns := false, raised := none }

/-- `detail::StatementDeleter` / `detail::ConnectionDeleter` (cpp 655-662):
cleanup invokes the native release function when the wrapper still owns its
handle. Counts the native calls the destructor adds. -/
def deleterNativeCalls (owns : Bool) : Nat := if owns then 1 else 0

/-- Total native `::sqlite3_finalize` invocations for one explicit finalize
call followed by destruction of the wrapper. -/
def finalizeTotalNativeCalls (code : Int) : Nat :=
  1 + deleterNativeCalls (sqlite3_finalize code).owns

/-- Total native `::sqlite3_close` invocations for one explicit close call
followed by destruction of the wrapper. -/
def closeTotalNativeCalls (code : Int) : Nat :=
  1 + deleterNativeCalls (sqlite3_close code).owns

/-! ### Opening a connection -/

/-- The observable steps of `open_connection`, in program order: the native
open call, construction of the owning `unique_connection` around whatever
handle the open produced, the raise of an error, the close performed by the
wrapper's deleter during unwinding, and the normal return of the owned
handle. -/
inductive OpenEv where
  | nativeOpen
  | wrap (h : Option Nat)
  | raiseErr (code : Int)
  | close (h : Nat)
  | ret (h : Option Nat)
deriving DecidableEq

/-- `open_connection` (cpp 83-93) as an event trace over the abstract native
outcome: the open call fills `connect` (possibly null even on failure, possibly
non-null) and returns `code`; the handle is wrapped into `unique_connection`
unconditionally, then the code is classified; on failure `throw_error` fires
and stack unwinding destroys the local wrapper, closing a non-null handle.
`sqlite3_open` (437-449) for UTF-8, UTF-16 and v2 all forward here. -/
def open_connection (code : Int) (connect : Option Nat) : List OpenEv :=
  [OpenEv.nativeOpen, OpenEv.wrap connect] ++
    (if result_is_error code then
      [OpenEv.raiseErr code] ++
        (match connect with
          | some h => [OpenEv.close h]
          | none => [])
    else [OpenEv.ret connect])

/-! ### Column accessors -/

/-- The native column accessors for integers, abstracted: per statement handle
and column index, the value `::sqlite3_column_int` yields (a C `int`, already
truncated by the engine) and the value `::sqlite3_column_int64` yields. The
C++ `int` → `sqlite3_int64` widening is value-preserving, so both are plain
integers here. -/
structure ColumnEngine where
  column_int : Nat → Int → Int
  column_int64 : Nat → Int → Int

/-- Wrapper `sqlite3_column_int` (cpp 256-259): forwards to native
`::sqlite3_column_int`. -/
def sqlite3_column_int (eng : ColumnEngine) (s : Nat) (i : Int) : Int :=
  eng.column_int s i

/-- Wrapper `sqlite3_column_int64` (cpp 260-263): its body also invokes native
`::sqlite3_column_int`, not `::sqlite3_column_int64`; the returned `int` is
widened to `sqlite3_int64_t`. -/
def sqlite3_column_int64 (eng : ColumnEngine) (s : Nat) (i : Int) : Int :=
  eng.column_int s i

/-- A concrete column engine on which the two native accessors disagree at
statement 0, column 0 (a column holding 2^40, truncated by the 32-bit native
accessor). -/
def colEngineDemo : ColumnEngine :=
  { column_int := fun _ _ => 1, column_int64 := fun _ _ => 1099511627776 }

/-! ### Null-returning string accessors -/

/-- The native string accessors that may legitimately return a null pointer,
abstracted: per statement handle and index, `none` models a NULL `const char*`
result. UTF-16 results are modelled as strings the same way. -/
structure NativeStrApi where
  bind_parameter_name : Nat → Int → Option String
  column_name : Nat → Int → Option String
  column_name16 : Nat → Int → Option String
  column_database_name : Nat → Int → Option String
  column_database_name16 : Nat → Int → Option String
  column_origin_name : Nat → Int → Option String
  column_origin_name16 : Nat → Int → Option String
  column_table_name : Nat → Int → Option String
  column_table_name16 : Nat → Int → Option String

/-- `sqlite3_bind_parameter_name` (cpp 169-174): `if(str == nullptr) return
utf8_string_out_t(); return str;`. The wrapper never classifies or throws
here, so the result is always `.ok`. -/
def sqlite3_bind_parameter_name (api : NativeStrApi) (s : Nat) (i : Int) :
    Except String String :=
  match api.bind_parameter_name s i with
  | none => Except.ok ""
  | some str => Except.ok str

/-- `sqlite3_column_name` (cpp 264-270): null native result becomes the empty
string. -/
def sqlite3_column_name (api : NativeStrApi) (s : Nat) (i : Int) :
    Except String String :=
  match api.column_name s i with
  | none => Except.ok ""
  | some str => Except.ok str

/-- `sqlite3_column_name16` (cpp 271-277). -/
def sqlite3_column_name16 (api : NativeStrApi) (s : Nat) (i : Int) :
    Except String String :=
  match api.column_name16 s i with
  | none => Except.ok ""
  | some str => Except.ok str

/-- `sqlite3_column_database_name` (cpp 279-287, under
SQLITE_ENABLE_COLUMN_METADATA). -/
def sqlite3_column_database_name (api : NativeStrApi) (s : Nat) (i : Int) :
    Except String String :=
  match api.column_database_name s i with
  | none => Except.ok ""
  | some str => Except.ok str

/-- `sqlite3_column_database_name16` (cpp 288-296). -/
def sqlite3_column_database_name16 (api : NativeStrApi) (s : Nat) (i : Int) :
    Except String String :=
  match api.column_database_name16 s i with
  | none => Except.ok ""
  | some str => Except.ok str

/-- `sqlite3_column_origin_name` (cpp 297-305). -/
def sqlite3_column_origin_name (api : NativeStrApi) (s : Nat) (i : Int) :
    Except String String :=
  match api.column_origin_name s i with
  | none => Except.ok ""
  | some str => Except.ok str

/-- `sqlite3_column_origin_name16` (cpp 306-314). -/
def sqlite3_column_origin_name16 (api : NativeStrApi) (s : Nat) (i : Int) :
    Except String String :=
  match api.column_origin_name16 s i with
  | none => Except.ok ""
  | some str => Except.ok str

/-- `sqlite3_column_table_name` (cpp 315-323). -/
def sqlite3_column_table_name (api : NativeStrApi) (s : Nat) (i : Int) :
    Except String String :=
  match api.column_table_name s i with
  | none => Except.ok ""
  | some str => Except.ok str

/-- `sqlite3_column_table_name16` (cpp 324-332). -/
def sqlite3_column_table_name16 (api : NativeStrApi) (s : Nat) (i : Int) :
    Except String String :=
  match api.column_table_name16 s i with
  | none => Except.ok ""
  | some str => Except.ok str

/-- The behaviour C7 asserts of one accessor: a null native result yields the
empty string, a non-null result yields that string, and no input raises a
failure. -/
def NullSafe (native : Nat → Int → Option String)
    (wrapped : Nat → Int → Except String String) : Prop :=
  ∀ s i,
    (native s i = none → wrapped s i = Except.ok "") ∧
    (∀ str, native s i = some str → wrapped s i = Except.ok str) ∧
    ∃ v, wrapped s i = Except.ok v

/-! ### Exec -/

/-- The observable steps of `sqlite3_exec`, in program order: the native call,
the construction of the error value from the engine-allocated message (the
copy), the `sqlite3_free` of that message, the throw, and the normal return. -/
inductive ExecEv where
  | nativeExec
  | copyMsg (m : String)
  | freeMsg
  | raiseErr (m : String)
  | retOk
deriving DecidableEq

/-- `sqlite3_exec` (cpp 395-406) as an event trace over the abstract native
outcome: the native call returns `code` and, on failure, deposits the
engine-allocated message `errorOut`; the wrapper then builds
`error_string_without_details(code) + ": " + errorOut`, frees `errorOut` via
`sqlite3_free`, and throws the built string; on success nothing else runs. -/
def sqlite3_exec (code : Int) (errorOut : String) : List ExecEv :=
  [ExecEv.nativeExec] ++
    (if result_is_error code then
      [ExecEv.copyMsg (error_string_without_details code ++ ": " ++ errorOut),
       ExecEv.freeMsg,
       ExecEv.raiseErr (error_string_without_details code ++ ": " ++ errorOut)]
    else [ExecEv.retOk])

/-! ### Prepare -/

/-- The tuple `sqlite3_prepare_v2` returns (cpp 463-474): the owned statement
handle and the remainder pointer. Pointers into the caller's SQL buffer are
modelled as code-unit offsets (`Int`, matching C pointer differences). -/
structure PrepareResult where
  stmt : Option Nat
  tail : Int
deriving DecidableEq

/-- `sqlite3_prepare_v2` (cpp 463-474) over the abstract native outcome: the
native call fills `stmt` and the tail pointer `pos`, and the wrapper returns
`std::make_tuple(unique_statement(stmt), sql + (pos - sql))`. The UTF-16
variants (475-502) compute the same expression after re-expressing the native
`void*` tail as a code-unit pointer, and `sqlite3_prepare` (451-462) is
identical; `sql` is the base pointer of the caller's buffer. -/
def sqlite3_prepare_v2 (stmt : Option Nat) (sql pos : Int) : PrepareResult :=
  { stmt := stmt, tail := sql + (pos - sql) }

end Sqlt3

namespace Sqlt3

/-- C1: exactly the three codes `SQLITE_OK`, `SQLITE_ROW` and `SQLITE_DONE` are
non-error for the classification function `result_is_error`; every other
integer code classifies as failure; and each wrapped operation that classifies
its result — the generic `invoke_with_result_error` path as well as
`sqlite3_exec` and `open_connection`, which call `result_is_error` directly —
raises an error exactly when the code lies outside this three-element set. -/
theorem C1_classification (eng : Engine) (ctx : Option Nat) (code : Int) :
    (result_is_error code = false ↔
      (code = SQLITE_OK ∨ code = SQLITE_ROW ∨ code = SQLITE_DONE)) ∧
    ((∃ m, invoke_with_result_error eng ctx code = Except.error m) ↔
      ¬(code = SQLITE_OK ∨ code = SQLITE_ROW ∨ code = SQLITE_DONE)) ∧
    (∀ out, (∃ m, ExecEv.raiseErr m ∈ sqlite3_exec code out) ↔
      result_is_error code = true) ∧
    (∀ hc : Option Nat, (∃ c, OpenEv.raiseErr c ∈ open_connection code hc) ↔
      result_is_error code = true) := by
  have hclass : result_is_error code = false ↔
      (code = SQLITE_OK ∨ code = SQLITE_ROW ∨ code = SQLITE_DONE) := by
    constructor
    · intro h
      by_contra hn
      push_neg at hn
      simp [result_is_error, hn.1, hn.2.1, hn.2.2] at h
    · rintro (h | h | h) <;> simp [result_is_error, h]
  refine ⟨hclass, ?_, ?_, ?_⟩
  · by_cases h : result_is_error code = true
    · constructor
      · intro _
        intro hmem
        rw [← hclass] at hmem
        rw [h] at hmem
        exact Bool.noConfusion hmem
      · intro _
        exact ⟨throw_error_message eng ctx code,
          by simp [invoke_with_result_error, h]⟩
    · have hfalse : result_is_error code = false := by
        revert h
        cases result_is_error code <;> simp
      constructor
      · rintro ⟨m, hm⟩
        rw [invoke_with_result_error, hfalse] at hm
        simp at hm
      · intro hmem
        exact absurd (hclass.mp hfalse) hmem
  · intro out
    by_cases h : result_is_error code = true
    · simp [sqlite3_exec, h]
    · have hfalse : result_is_error code = false := by
        revert h
        cases result_is_error code <;> simp
      simp [sqlite3_exec, hfalse]
  · intro hc
    by_cases h : result_is_error code = true
    · cases hc <;> simp [open_connection, h]
    · have hfalse : result_is_error code = false := by
        revert h
        cases result_is_error code <;> simp
      cases hc <;> simp [open_connection, hfalse]

/-- C2 (amended): for every failing wrapped operation the produced message is
the numeric-code header `"SQLite error(code)"` (not the bare `"error(code)"`
the claim states) followed by `": "` and the human-readable suffix: the
connection-scoped last-error text `sqlite3_errmsg` when a connection handle is
available as context, and the global code-to-string text `sqlite3_errstr`
otherwise. -/
theorem C2_error_message (eng : Engine) (ctx : Option Nat) (code : Int)
    (h : result_is_error code = true) :
    ∃ m, invoke_with_result_error eng ctx code = Except.error m ∧
      m = "SQLite error(" ++ toString code ++ ")" ++ ": " ++
          (match ctx with
            | some db => eng.errmsg db
            | none => eng.errstr code) ∧
      ∃ rest, m = "SQLite error(" ++ toString code ++ ")" ++ rest := by
  refine ⟨throw_error_message eng ctx code, ?_, ?_, ?_⟩
  · simp [invoke_with_result_error, h]
  · cases ctx <;>
      simp [throw_error_message, throw_error_global, throw_error_db,
        error_string_without_details]
  · match ctx with
    | none =>
      refine ⟨": " ++ eng.errstr code, ?_⟩
      show error_string_without_details code ++ ": " ++ eng.errstr code =
        "SQLite error(" ++ toString code ++ ")" ++ (": " ++ eng.errstr code)
      rw [error_string_without_details, String.append_assoc]
    | some db =>
      refine ⟨": " ++ eng.errmsg db, ?_⟩
      show error_string_without_details code ++ ": " ++ eng.errmsg db =
        "SQLite error(" ++ toString code ++ ")" ++ (": " ++ eng.errmsg db)
      rw [error_string_without_details, String.append_assoc]

/-- C2 witness: the amended statement discharged at the failing code 1 with no
connection context against the concrete demo engine. -/
theorem C2_error_message_witness :
    ∃ m, invoke_with_result_error engDemo none 1 = Except.error m ∧
      m = "SQLite error(" ++ toString (1 : Int) ++ ")" ++ ": " ++
          (match (none : Option Nat) with
            | some db => engDemo.errmsg db
            | none => engDemo.errstr 1) ∧
      ∃ rest, m = "SQLite error(" ++ toString (1 : Int) ++ ")" ++ rest :=
  C2_error_message engDemo none 1 (by decide)

/-- C2 counterexample: at failing code 1 with no connection context the wrapper
produces the message `"SQLite error(1): unknown error"` (demo engine), and no
string completes `"error(1)"` to that message — the message does not begin
with `"error(code)"` as the claim states. -/
theorem C2_counterexample :
    invoke_with_result_error engDemo none 1 =
      Except.error "SQLite error(1): unknown error" ∧
    ∀ rest : String, "SQLite error(1): unknown error" ≠ "error(1)" ++ rest := by
  constructor
  · rfl
  · intro rest h
    have hd : ("SQLite error(1): unknown error").data = ("error(1)" ++ rest).data := by
      rw [h]
    rw [String.data_append] at hd
    have hh := congrArg List.head? hd
    simp at hh

/-- Destructor shutdowns distribute over concatenated configurations. -/
theorem shutdownCount_append (w v : List Bool) :
    shutdownCount (w ++ v) = shutdownCount w + shutdownCount v := by
  simp [shutdownCount]

/-- Marking a still-live token moved removes exactly one pending shutdown. -/
theorem shutdownCount_set_true_of_live (w : List Bool) (i : Nat)
    (h : w.getD i true = false) :
    shutdownCount w = shutdownCount (w.set i true) + 1 := by
  induction w generalizing i with
  | nil => simp [List.getD] at h
  | cons b t ih =>
    cases i with
    | zero =>
      simp only [List.getD_cons_zero] at h
      subst h
      simp [shutdownCount, tokDtorShutdowns, Nat.add_comm]
    | succ n =>
      have hrec := ih n (by simpa using h)
      simp only [List.set_cons_succ, shutdownCount, List.map_cons,
        List.sum_cons] at hrec ⊢
      omega

/-- Marking an already-moved token moved again changes nothing. -/
theorem shutdownCount_set_true_of_moved (w : List Bool) (i : Nat)
    (h : w.getD i false = true) :
    shutdownCount (w.set i true) = shutdownCount w := by
  induction w generalizing i with
  | nil => simp
  | cons b t ih =>
    cases i with
    | zero =>
      simp only [List.getD_cons_zero] at h
      subst h
      simp [shutdownCount]
    | succ n =>
      have hrec := ih n (by simpa using h)
      simp only [List.set_cons_succ, shutdownCount, List.map_cons,
        List.sum_cons] at hrec ⊢
      omega

/-- Reading back the written flag of an in-range token. -/
theorem getD_set_self (w : List Bool) (i : Nat) (a d : Bool) (h : i < w.length) :
    (w.set i a).getD i d = a := by
  induction w generalizing i with
  | nil => simp at h
  | cons b t ih =>
    cases i with
    | zero => simp
    | succ n => simpa using ih n (by simpa using h)

/-- A safe operation sequence preserves the number of pending shutdowns. -/
theorem tokRun_safe_preserves (ops : List TokOp) (w : List Bool)
    (hsafe : tokOpsSafe w ops = true) :
    shutdownCount (tokRun w ops) = shutdownCount w := by
  induction ops generalizing w with
  | nil => rfl
  | cons op rest ih =>
    cases op with
    | moveCtor src =>
      rw [tokOpsSafe, Bool.and_eq_true] at hsafe
      have hlive : w.getD src true = false := by
        have := hsafe.1
        simpa using this
      have hrest := ih _ hsafe.2
      rw [tokRun, hrest, tokStep, shutdownCount_append]
      have := shutdownCount_set_true_of_live w src hlive
      simp [shutdownCount, tokDtorShutdowns] at this ⊢
      omega
    | moveAssign dst src =>
      rw [tokOpsSafe, Bool.and_eq_true] at hsafe
      have hrest := ih _ hsafe.2
      rw [tokRun, hrest]
      by_cases hds : dst = src
      · simp [tokStep, hds]
      · have hmoved : w.getD src false = true := by
          rcases Bool.or_eq_true _ _ |>.mp hsafe.1 with h1 | h2
          · exact absurd (by simpa using h1) hds
          · simpa using h2
        simp only [tokStep, if_neg hds]
        exact shutdownCount_set_true_of_moved w src hmoved

/-- C3 (amended): starting from a configuration with exactly one pending
shutdown (the token of one successful `sqlite3_initialize`), any sequence of
move-constructions from live sources and of move-assignments that are self-moves
or take already-moved sources leaves exactly one shutdown to fire across the
destructions; moreover moving from a token (by construction or non-self
assignment) marks the source Moved, a self-move-assignment causes no
transition, and destruction of a Moved token fires no shutdown while
destruction of a Live token fires exactly one. The restriction is forced by
`operator=`, which never marks its destination live: move-assigning the live
token into a moved-from token silently drops the pending shutdown (see the
counterexample). -/
theorem C3_token_shutdown_amended (w : List Bool) (ops : List TokOp)
    (dst src : Nat) (hone : shutdownCount w = 1)
    (hsafe : tokOpsSafe w ops = true) :
    shutdownCount (tokRun w ops) = 1 ∧
    (src < w.length → (tokStep w (TokOp.moveCtor src)).getD src true = true) ∧
    (dst ≠ src → src < w.length →
      (tokStep w (TokOp.moveAssign dst src)).getD src true = true) ∧
    tokStep w (TokOp.moveAssign src src) = w ∧
    tokDtorShutdowns true = 0 ∧ tokDtorShutdowns false = 1 := by
  refine ⟨by rw [tokRun_safe_preserves ops w hsafe, hone], ?_, ?_,
    by simp [tokStep], rfl, rfl⟩
  · intro hlt
    rw [tokStep]
    rw [List.getD_append _ _ _ _ (by simpa using hlt)]
    exact getD_set_self w src true _ hlt
  · intro hds hlt
    rw [tokStep, if_neg hds]
    exact getD_set_self w src true _ hlt

/-- C3 witness: the amended statement discharged on the single token of one
successful initialize, moved twice by move-construction. -/
theorem C3_token_shutdown_amended_witness :
    shutdownCount (tokRun [false] [TokOp.moveCtor 0, TokOp.moveCtor 1]) = 1 ∧
    (0 < ([false] : List Bool).length →
      (tokStep [false] (TokOp.moveCtor 0)).getD 0 true = true) ∧
    ((1 : Nat) ≠ 0 → 0 < ([false] : List Bool).length →
      (tokStep [false] (TokOp.moveAssign 1 0)).getD 0 true = true) ∧
    tokStep [false] (TokOp.moveAssign 0 0) = [false] ∧
    tokDtorShutdowns true = 0 ∧ tokDtorShutdowns false = 1 :=
  C3_token_shutdown_amended [false] [TokOp.moveCtor 0, TokOp.moveCtor 1] 1 0
    (by decide) (by decide)

/-- C3 counterexample: `auto b = std::move(a); a = std::move(b);` on the token
`a` of one successful initialize — a valid sequence of one move-construction
and one move-assignment — ends with both objects Moved, so zero shutdowns fire
across the destructions, not exactly one as the claim states: `operator=`
marks its source moved but never marks its destination live. -/
theorem C3_token_shutdown_counterexample :
    tokOpsValid [false] [TokOp.moveCtor 0, TokOp.moveAssign 0 1] = true ∧
    shutdownCount (tokRun [false] [TokOp.moveCtor 0, TokOp.moveAssign 0 1]) = 0 := by
  decide

/-- C4: evaluation of the backup-finish model at the failing native result
code 1 (`SQLITE_ERROR`): the wrapper is left owning the handle (the throw in
`invoke_with_result_error` precedes `b.release()`), the failure is surfaced,
and the native finish ends up invoked twice — once in the wrapper body and a
second time by `BackupDeleter` during cleanup; on a successful finish (code 0)
the wrapper is disarmed and finish runs exactly once. This contradicts the
claim that the wrapper is disarmed regardless of the finish result. -/
theorem C4_backup_finish_eval :
    (sqlite3_backup_finish 1).owns = true ∧
    (sqlite3_backup_finish 1).raised = some 1 ∧
    backupFinishTotalNativeCalls 1 = 2 ∧
    (sqlite3_backup_finish 0).owns = false ∧
    backupFinishTotalNativeCalls 0 = 1 := by
  decide

/-- C5: for every open result code and produced handle, the trace of
`open_connection` wraps the handle into the owning `unique_connection`
immediately after the native open and before any raise: on a failure code the
raise happens after the wrap and, when a handle was produced, the cleanup of
the owning wrapper closes it; on success the wrapped handle is returned. -/
theorem C5_open_wraps_before_raise (code : Int) (connect : Option Nat) :
    ∃ post,
      open_connection code connect =
        [OpenEv.nativeOpen, OpenEv.wrap connect] ++ post ∧
      (result_is_error code = true →
        OpenEv.raiseErr code ∈ post ∧
        ∀ h, connect = some h → OpenEv.close h ∈ post) ∧
      (result_is_error code = false → post = [OpenEv.ret connect]) ∧
      (∀ c, OpenEv.raiseErr c ∉ [OpenEv.nativeOpen, OpenEv.wrap connect]) := by
  by_cases h : result_is_error code = true
  · refine ⟨[OpenEv.raiseErr code] ++
      (match connect with
        | some hh => [OpenEv.close hh]
        | none => []), ?_, ?_, ?_, ?_⟩
    · simp [open_connection, h]
    · intro _
      constructor
      · simp
      · intro hh hc
        subst hc
        simp
    · intro hf
      rw [h] at hf
      exact absurd hf (by simp)
    · intro c
      simp
  · have hf : result_is_error code = false := by
      revert h
      cases result_is_error code <;> simp
    refine ⟨[OpenEv.ret connect], ?_, ?_, ?_, ?_⟩
    · simp [open_connection, hf]
    · intro ht
      rw [hf] at ht
      exact absurd ht (by simp)
    · intro _
      rfl
    · intro c
      simp

/-- C6: the wrapper's `sqlite3_column_int64` computes exactly what the wrapper's
`sqlite3_column_int` computes — both return the native 32-bit accessor's value
(widening is value-preserving) — and on an engine where the native 64-bit
accessor disagrees (a column holding 2^40), the wrapper's result differs from
the native `::sqlite3_column_int64` value. -/
theorem C6_column_int64_is_int :
    (∀ eng s i, sqlite3_column_int64 eng s i = sqlite3_column_int eng s i ∧
      sqlite3_column_int64 eng s i = eng.column_int s i) ∧
    sqlite3_column_int64 colEngineDemo 0 0 ≠ colEngineDemo.column_int64 0 0 := by
  refine ⟨fun eng s i => ⟨rfl, rfl⟩, ?_⟩
  decide

/-- The shared null-check shape of the string accessors satisfies `NullSafe`. -/
theorem nullSafe_of_match (native : Nat → Int → Option String) :
    NullSafe native (fun s i =>
      match native s i with
      | none => Except.ok ""
      | some str => Except.ok str) := by
  intro s i
  refine ⟨?_, ?_, ?_⟩
  · intro h
    simp [h]
  · intro str h
    simp [h]
  · cases h : native s i <;> simp [h]

/-- C7: every string accessor whose native counterpart may return a null
pointer — bind-parameter name, column name in UTF-8 and UTF-16, and the
database/table/origin metadata names in both encodings — maps a null native
result to the empty output string, maps a non-null result to that string, and
never raises a failure. -/
theorem C7_null_to_empty (api : NativeStrApi) :
    NullSafe api.bind_parameter_name (sqlite3_bind_parameter_name api) ∧
    NullSafe api.column_name (sqlite3_column_name api) ∧
    NullSafe api.column_name16 (sqlite3_column_name16 api) ∧
    NullSafe api.column_database_name (sqlite3_column_database_name api) ∧
    NullSafe api.column_database_name16 (sqlite3_column_database_name16 api) ∧
    NullSafe api.column_origin_name (sqlite3_column_origin_name api) ∧
    NullSafe api.column_origin_name16 (sqlite3_column_origin_name16 api) ∧
    NullSafe api.column_table_name (sqlite3_column_table_name api) ∧
    NullSafe api.column_table_name16 (sqlite3_column_table_name16 api) :=
  ⟨nullSafe_of_match api.bind_parameter_name,
   nullSafe_of_match api.column_name,
   nullSafe_of_match api.column_name16,
   nullSafe_of_match api.column_database_name,
   nullSafe_of_match api.column_database_name16,
   nullSafe_of_match api.column_origin_name,
   nullSafe_of_match api.column_origin_name16,
   nullSafe_of_match api.column_table_name,
   nullSafe_of_match api.column_table_name16⟩

/-- C8: on a failing exec the trace is exactly native call, copy of the
engine-allocated message into the error value, `sqlite3_free` of that message,
then the raise — so the free happens on the (only) failure path before the
failure is raised, and the raised message has the engine text as suffix; on a
success no message is copied, freed or raised. -/
theorem C8_exec_copies_frees_then_raises (code : Int) (errorOut : String) :
    (result_is_error code = true →
      sqlite3_exec code errorOut =
        [ExecEv.nativeExec,
         ExecEv.copyMsg (error_string_without_details code ++ ": " ++ errorOut),
         ExecEv.freeMsg,
         ExecEv.raiseErr (error_string_without_details code ++ ": " ++ errorOut)] ∧
      ∃ pre, error_string_without_details code ++ ": " ++ errorOut = pre ++ errorOut) ∧
    (result_is_error code = false →
      sqlite3_exec code errorOut = [ExecEv.nativeExec, ExecEv.retOk] ∧
      ExecEv.freeMsg ∉ sqlite3_exec code errorOut ∧
      ∀ m, ExecEv.raiseErr m ∉ sqlite3_exec code errorOut) := by
  constructor
  · intro h
    refine ⟨by simp [sqlite3_exec, h],
      ⟨error_string_without_details code ++ ": ", rfl⟩⟩
  · intro h
    refine ⟨by simp [sqlite3_exec, h], ?_, ?_⟩
    · simp [sqlite3_exec, h]
    · intro m
      simp [sqlite3_exec, h]

/-- C9: for every prepared buffer, the returned tuple holds the statement
handle and the remainder `sql + (pos - sql)`, which equals the native tail
offset itself — an offset into the original buffer, not a copy; under the
engine guarantee that the tail lies within the passed buffer of `len` code
units, the remainder stays within the buffer; the remainder equals the
original pointer exactly when nothing was consumed; and when the whole
single-statement buffer was consumed the remainder is `sql + len`, the offset
of the terminating null. -/
theorem C9_prepare_tail (stmt : Option Nat) (sql pos len : Int)
    (hlo : sql ≤ pos) (hhi : pos ≤ sql + len) :
    (sqlite3_prepare_v2 stmt sql pos).stmt = stmt ∧
    (sqlite3_prepare_v2 stmt sql pos).tail = sql + (pos - sql) ∧
    (sqlite3_prepare_v2 stmt sql pos).tail = pos ∧
    sql ≤ (sqlite3_prepare_v2 stmt sql pos).tail ∧
    (sqlite3_prepare_v2 stmt sql pos).tail ≤ sql + len ∧
    ((sqlite3_prepare_v2 stmt sql pos).tail = sql ↔ pos = sql) ∧
    (pos = sql + len → (sqlite3_prepare_v2 stmt sql pos).tail = sql + len) := by
  simp only [sqlite3_prepare_v2]
  refine ⟨trivial, trivial, by ring, by omega, by omega, ?_, by intro h; omega⟩
  constructor
  · intro h
    omega
  · intro h
    omega

/-- C9 witness: the two-statement buffer example — base offset 0, buffer
length 19 (`"SELECT 1; SELECT 2;"`), native tail at offset 10 (the start of
`"SELECT 2;"`). -/
theorem C9_prepare_tail_witness :
    (sqlite3_prepare_v2 (some 0) 0 10).stmt = some 0 ∧
    (sqlite3_prepare_v2 (some 0) 0 10).tail = 0 + (10 - 0) ∧
    (sqlite3_prepare_v2 (some 0) 0 10).tail = 10 ∧
    (0 : Int) ≤ (sqlite3_prepare_v2 (some 0) 0 10).tail ∧
    (sqlite3_prepare_v2 (some 0) 0 10).tail ≤ 0 + 19 ∧
    ((sqlite3_prepare_v2 (some 0) 0 10).tail = 0 ↔ (10 : Int) = 0) ∧
    ((10 : Int) = 0 + 19 → (sqlite3_prepare_v2 (some 0) 0 10).tail = 0 + 19) :=
  C9_prepare_tail (some 0) 0 10 19 (by decide) (by decide)

/-- C10: the explicit release operations are asymmetric on failure —
`sqlite3_finalize` releases ownership before invoking the native finalize, so
the wrapper never owns the handle afterwards and the native finalize runs
exactly once even counting cleanup; `sqlite3_close` (rvalue overload) invokes
the native close first, so on a failure code it throws before releasing, the
wrapper still owns the handle, and cleanup invokes the native close a second
time, while on success it is disarmed and close runs once. -/
theorem C10_release_asymmetry (code : Int) :
    ((sqlite3_finalize code).owns = false ∧ finalizeTotalNativeCalls code = 1 ∧
      ((sqlite3_finalize code).raised = some code ↔ result_is_error code = true)) ∧
    (result_is_error code = true →
      (sqlite3_close code).owns = true ∧ closeTotalNativeCalls code = 2 ∧
      (sqlite3_close code).raised = some code) ∧
    (result_is_error code = false →
      (sqlite3_close code).owns = false ∧ closeTotalNativeCalls code = 1) := by
  by_cases h : result_is_error code = true
  · refine ⟨⟨rfl, rfl, ?_⟩, ?_, ?_⟩
    · simp [sqlite3_finalize, h]
    · intro _
      refine ⟨?_, ?_, ?_⟩ <;>
        simp [sqlite3_close, closeTotalNativeCalls, deleterNativeCalls, h]
    · intro hf
      rw [h] at hf
      exact absurd hf (by simp)
  · have hf : result_is_error code = false := by
      revert h
      cases result_is_error code <;> simp
    refine ⟨⟨rfl, rfl, ?_⟩, ?_, ?_⟩
    · simp [sqlite3_finalize, hf]
    · intro ht
      rw [hf] at ht
      exact absurd ht (by simp)
    · intro _
      refine ⟨?_, ?_⟩ <;>
        simp [sqlite3_close, closeTotalNativeCalls, deleterNativeCalls, hf]

end Sqlt3
